import Mathlib

/-!
Shallow embedding of the `rest-client` resilience layer.

Sources embedded:
- `src/rest_client/circuit_breaker.py` — the three-state circuit breaker.
- `src/src/rest_client/rate_limit.py` — token bucket and rate limiter.
- `src/src/rest_client/retry.py` — the retryability classifier and the
  tenacity-configured retry loop.
- `src/rest_client/clients.py` — the request pipeline (rate-limit gate,
  cache lookup, breaker-gated transport attempt, status-to-error mapping).
- `src/rest_client/exceptions.py` — the error taxonomy.

Python `time.time()` calls become explicit `now : ℚ` arguments; floats
become rationals; exceptions become an inductive error type carrying the
attributes the code inspects.  The exception type seen by the circuit
breaker is a type parameter `ε`, and the configured
`excluded_exceptions` class list becomes a list of Boolean predicates on
`ε` (one predicate per class, `isinstance e cls` becoming `p e`).
-/

namespace RestClient

/-- `CircuitState` enum from `circuit_breaker.py`. -/
inductive CircuitState where
  | CLOSED
  | OPEN
  | HALF_OPEN
  deriving DecidableEq, Repr

/-- `CircuitBreakerConfig` from `config.py` (the fields the breaker and the
client's failure-report step read; `failure_rate_threshold`,
`sampling_duration`, `per_host` and `fallback` are never read by the code
under verification). -/
structure CircuitBreakerConfig (ε : Type) where
  failure_threshold : ℕ
  success_threshold : ℕ
  reset_timeout : ℚ
  half_open_max_calls : ℕ
  excluded_exceptions : List (ε → Bool)
  included_status_codes : List ℕ

/-- `CircuitBreakerMetrics` from `circuit_breaker.py`. -/
structure CircuitBreakerMetrics where
  failure_count : ℕ
  success_count : ℕ
  last_failure_time : Option ℚ
  total_calls : ℕ
  total_failures : ℕ
  deriving Repr

/-- Fresh metrics, as built by `CircuitBreakerMetrics.__init__`. -/
def CircuitBreakerMetrics.init : CircuitBreakerMetrics :=
  { failure_count := 0, success_count := 0, last_failure_time := none
    total_calls := 0, total_failures := 0 }

/-- `CircuitBreaker` state from `circuit_breaker.py`: configuration, current
state, metrics, and the timestamp the breaker entered Open (`None` while it
has never opened or after `_transition_to_closed`). -/
structure CircuitBreaker (ε : Type) where
  config : CircuitBreakerConfig ε
  state : CircuitState
  metrics : CircuitBreakerMetrics
  opened_at : Option ℚ

namespace CircuitBreaker

variable {ε : Type}

/-- `CircuitBreaker.__init__`. -/
def init (config : CircuitBreakerConfig ε) : CircuitBreaker ε :=
  { config := config, state := .CLOSED, metrics := .init, opened_at := none }

/-- `CircuitBreaker._transition_to_open` (`now` is the `time.time()` read). -/
def transition_to_open (cb : CircuitBreaker ε) (now : ℚ) : CircuitBreaker ε :=
  { cb with
      state := .OPEN
      opened_at := some now
      metrics := { cb.metrics with failure_count := 0, success_count := 0 } }

/-- `CircuitBreaker._transition_to_half_open`. -/
def transition_to_half_open (cb : CircuitBreaker ε) : CircuitBreaker ε :=
  { cb with
      state := .HALF_OPEN
      metrics := { cb.metrics with failure_count := 0, success_count := 0 } }

/-- `CircuitBreaker._transition_to_closed`. -/
def transition_to_closed (cb : CircuitBreaker ε) : CircuitBreaker ε :=
  { cb with
      state := .CLOSED
      opened_at := none
      metrics := { cb.metrics with failure_count := 0, success_count := 0 } }

/-- `CircuitBreaker.allow_request`.  Returns the Boolean the Python method
returns, paired with the (possibly transitioned) breaker.  In the `OPEN`
branch the code computes `time.time() - self.opened_at`; `opened_at` is
always set when the state is `OPEN` (the only way into `OPEN` is
`_transition_to_open`, which sets it), so the `getD 0` default is
unreachable on states arising from the API — on `opened_at = None` the
Python would raise a `TypeError` instead. -/
def allow_request (cb : CircuitBreaker ε) (now : ℚ) : Bool × CircuitBreaker ε :=
  match cb.state with
  | .OPEN =>
      if now - cb.opened_at.getD 0 > cb.config.reset_timeout then
        (true, cb.transition_to_half_open)
      else
        (false, cb)
  | .HALF_OPEN => (true, cb)
  | .CLOSED => (true, cb)

/-- `CircuitBreaker.record_success`. -/
def record_success (cb : CircuitBreaker ε) : CircuitBreaker ε :=
  match cb.state with
  | .HALF_OPEN =>
      let m := { cb.metrics with success_count := cb.metrics.success_count + 1 }
      let cb1 := { cb with metrics := m }
      if m.success_count ≥ cb.config.success_threshold then
        cb1.transition_to_closed
      else
        cb1
  | .CLOSED => { cb with metrics := { cb.metrics with failure_count := 0 } }
  | .OPEN => cb

/-- `CircuitBreaker.record_failure`.  The excluded-exception scan
(`for excluded in self.config.excluded_exceptions: if isinstance(...)`)
runs before any metric update. -/
def record_failure (cb : CircuitBreaker ε) (exc : ε) (now : ℚ) : CircuitBreaker ε :=
  if cb.config.excluded_exceptions.any (fun isinst => isinst exc) then
    cb
  else
    let m := { cb.metrics with
                 last_failure_time := some now
                 total_failures := cb.metrics.total_failures + 1 }
    let cb1 := { cb with metrics := m }
    match cb1.state with
    | .CLOSED =>
        let m2 := { m with failure_count := m.failure_count + 1 }
        let cb2 := { cb1 with metrics := m2 }
        if m2.failure_count ≥ cb2.config.failure_threshold then
          cb2.transition_to_open now
        else
          cb2
    | .HALF_OPEN => cb1.transition_to_open now
    | .OPEN => cb1

end CircuitBreaker

/-- The breaker-report step of `Client.request` for an HTTP status failure
(`clients.py` lines 111–116): a failed status is reported to the breaker as
a failure only when it is in `included_status_codes`; otherwise the breaker
is given a success report. -/
def clientReportStatusFailure {ε : Type} (cb : CircuitBreaker ε) (status : ℕ)
    (exc : ε) (now : ℚ) : CircuitBreaker ε :=
  if status ∈ cb.config.included_status_codes then
    cb.record_failure exc now
  else
    cb.record_success

/-- Fold of `clientReportStatusFailure` over a sequence of failed calls,
each given as (time, status, exception). -/
def reportStatusFailures {ε : Type} (cb : CircuitBreaker ε)
    (calls : List (ℚ × ℕ × ε)) : CircuitBreaker ε :=
  calls.foldl (fun cb c => clientReportStatusFailure cb c.2.1 c.2.2 c.1) cb

/-! ## Token bucket and rate limiter (`src/src/rest_client/rate_limit.py`) -/

/-- `TokenBucket` state: refill rate (tokens/second), capacity, current
token count, last-refill timestamp.  Python stores tokens and capacity as
floats; rationals model them. -/
structure TokenBucket where
  rate : ℚ
  capacity : ℚ
  tokens : ℚ
  last_refill : ℚ
  deriving DecidableEq, Repr

namespace TokenBucket

/-- `TokenBucket.__init__(rate, capacity)` at time `now`:
`tokens = float(capacity)`, `last_refill = time.time()`. -/
def init (rate : ℚ) (capacity : ℕ) (now : ℚ) : TokenBucket :=
  { rate := rate, capacity := capacity, tokens := capacity, last_refill := now }

/-- `TokenBucket.acquire` at time `now`: refill by `elapsed * rate` capped
at capacity, then consume one token when at least one is available. -/
def acquire (b : TokenBucket) (now : ℚ) : Bool × TokenBucket :=
  let elapsed := now - b.last_refill
  let refilled := min b.capacity (b.tokens + elapsed * b.rate)
  let b1 : TokenBucket := { b with tokens := refilled, last_refill := now }
  if b1.tokens ≥ 1 then
    (true, { b1 with tokens := b1.tokens - 1 })
  else
    (false, b1)

/-- Repeated `acquire` at a fixed time `now`: the list of results of `n`
consecutive calls, with the final bucket state. -/
def acquireRepeat (b : TokenBucket) (now : ℚ) : ℕ → List Bool × TokenBucket
  | 0 => ([], b)
  | n + 1 =>
      let (ok, b1) := b.acquire now
      let (rest, b2) := b1.acquireRepeat now n
      (ok :: rest, b2)

end TokenBucket

/-- `RateLimitConfig` from `config.py` (fields the limiter reads). -/
structure RateLimitConfig where
  strategy : String
  max_requests : ℕ
  time_window : ℚ

/-- `RateLimiter` state: the global token bucket and the `_limiters`
dictionary (declared in `__init__`, never read or written afterwards). -/
structure RateLimiter where
  global_limiter : TokenBucket
  limiters : List (String × TokenBucket)

namespace RateLimiter

/-- `RateLimiter.__init__` at time `now`: a global token bucket with
`rate = max_requests / time_window` and `capacity = max_requests`; both
branches of the strategy dispatch build the same token bucket. -/
def init (config : RateLimitConfig) (now : ℚ) : RateLimiter :=
  { global_limiter :=
      TokenBucket.init (config.max_requests / config.time_window) config.max_requests now
    limiters := [] }

/-- `RateLimiter.acquire(key)` at time `now`: check the global limiter; the
`key` argument is accepted but never consulted (the per-key branch is a
comment in the source). -/
def acquire (rl : RateLimiter) (key : Option String) (now : ℚ) : Bool × RateLimiter :=
  let (ok, g) := rl.global_limiter.acquire now
  if ¬ ok then
    (false, { rl with global_limiter := g })
  else
    (true, { rl with global_limiter := g })

end RateLimiter

/-! ## Error taxonomy (`src/rest_client/exceptions.py`)

Each constructor mirrors one exception class; HTTP-family constructors
carry the `status_code` attribute (`response.status_code if response else
None`), and `RateLimitError` additionally carries `retry_after`. -/

/-- The client's exception taxonomy.  `HTTPError` is the generic HTTP
error; `ClientResponseError`, `AuthenticationError`, `ForbiddenError`,
`NotFoundError` and `RateLimitError` are its 4xx-family subclasses;
`ServerError` the 5xx subclass; `ConnectionError` and the timeout family
are transport-level; `CircuitBreakerOpenError` subclasses
`CircuitBreakerError`, outside the HTTP/transport families. -/
inductive RCError where
  | HTTPError (status_code : Option ℕ)
  | ClientResponseError (status_code : Option ℕ)
  | AuthenticationError (status_code : Option ℕ)
  | ForbiddenError (status_code : Option ℕ)
  | NotFoundError (status_code : Option ℕ)
  | RateLimitError (status_code : Option ℕ) (retry_after : Option ℚ)
  | ServerError (status_code : Option ℕ)
  | ConnectionError
  | TimeoutError
  | ConnectTimeoutError
  | ReadTimeoutError
  | WriteTimeoutError
  | CircuitBreakerOpenError
  deriving DecidableEq, Repr

namespace RCError

/-- `isinstance(e, HTTPError)`: true for the whole HTTP-error subtree. -/
def isHTTPError : RCError → Bool
  | .HTTPError _ => true
  | .ClientResponseError _ => true
  | .AuthenticationError _ => true
  | .ForbiddenError _ => true
  | .NotFoundError _ => true
  | .RateLimitError _ _ => true
  | .ServerError _ => true
  | _ => false

/-- `isinstance(e, ConnectionError)`. -/
def isConnectionError : RCError → Bool
  | .ConnectionError => true
  | _ => false

/-- `isinstance(e, TimeoutError)`: true for the timeout subtree. -/
def isTimeoutError : RCError → Bool
  | .TimeoutError => true
  | .ConnectTimeoutError => true
  | .ReadTimeoutError => true
  | .WriteTimeoutError => true
  | _ => false

/-- The `status_code` attribute (only HTTP-family errors have one). -/
def status_code : RCError → Option ℕ
  | .HTTPError s => s
  | .ClientResponseError s => s
  | .AuthenticationError s => s
  | .ForbiddenError s => s
  | .NotFoundError s => s
  | .RateLimitError s _ => s
  | .ServerError s => s
  | _ => none

end RCError

/-! ## Retry policy (`src/src/rest_client/retry.py`) -/

/-- `RetryConfig` from `config.py`. -/
structure RetryConfig where
  max_attempts : ℕ
  retry_statuses : List ℕ
  backoff_factor : ℚ
  backoff_max : ℚ

/-- `_should_retry_exception`: retry on `ConnectionError`/`TimeoutError`
instances, and on `HTTPError` instances whose `status_code` is truthy
(`if exception.status_code and ...`, so `None` and `0` both fail the test)
and lies in the configured `retry_statuses`. -/
def should_retry_exception (e : RCError) (retry_statuses : List ℕ) : Bool :=
  if e.isConnectionError || e.isTimeoutError then
    true
  else if e.isHTTPError then
    match e.status_code with
    | some c => decide (c ≠ 0) && decide (c ∈ retry_statuses)
    | none => false
  else
    false

/-- Modelled from the spec: the backoff schedule of the `tenacity`
dependency (`wait_exponential(multiplier=backoff_factor, max=backoff_max)`
in `create_retry_strategy`), whose code is not in `src/` — the delay
inserted before attempt `k` (1-indexed, `k ≥ 2`) is
`min(backoff_factor * 2^(k-2), backoff_max)`. -/
def backoffDelay (cfg : RetryConfig) (k : ℕ) : ℚ :=
  min (cfg.backoff_factor * 2 ^ (k - 2)) cfg.backoff_max

/-- Result of running the retry loop: the final outcome, the state threaded
through the attempts, the index of the last attempt performed (equal to the
number of attempts), and the list of backoff delays waited. -/
structure RetryOutcome (σ α : Type) where
  result : Except RCError α
  state : σ
  attempts : ℕ
  delays : List ℚ
  deriving Repr

/-- Modelled from the spec: the retry loop of the `tenacity` dependency
(`Retrying(stop=stop_after_attempt(max_attempts), wait=wait_exponential,
retry=retry_if_exception(_should_retry_exception), reraise=True)` in
`create_retry_strategy`), whose code is not in `src/` — perform attempt
`k`; stop with the value on success; stop and re-raise the error unchanged
on a non-retryable error; on a retryable error, if no attempts remain
(`fuel = 0`) re-raise the last error unchanged, otherwise wait the backoff
delay for attempt `k+1` and recurse.  `step k s` is the body handed to the
strategy (attempt number `k`, threaded state `s`). -/
def retryGo (cfg : RetryConfig) (step : ℕ → σ → Except RCError α × σ) :
    ℕ → ℕ → σ → RetryOutcome σ α
  | fuel, k, s =>
      let (o, s1) := step k s
      match o with
      | .ok v => ⟨.ok v, s1, k, []⟩
      | .error e =>
          if should_retry_exception e cfg.retry_statuses then
            match fuel with
            | 0 => ⟨.error e, s1, k, []⟩
            | fuel' + 1 =>
                let rest := retryGo cfg step fuel' (k + 1) s1
                ⟨rest.result, rest.state, rest.attempts,
                  backoffDelay cfg (k + 1) :: rest.delays⟩
          else
            ⟨.error e, s1, k, []⟩

/-- Modelled from the spec: invoking the retry strategy built by
`create_retry_strategy(config)` on an attempt body — attempts start at 1
and are capped at `max_attempts`. -/
def retryRun (cfg : RetryConfig) (step : ℕ → σ → Except RCError α × σ) (s : σ) :
    RetryOutcome σ α :=
  retryGo cfg step (cfg.max_attempts - 1) 1 s

/-- A stateless attempt body, for running the retry strategy on a pure
outcome sequence. -/
def pureStep (f : ℕ → Except RCError α) : ℕ → Unit → Except RCError α × Unit :=
  fun k _ => (f k, ())

/-! ## Status-to-error classification (`Client._handle_http_error`) -/

/-- Digit list to natural number. -/
def digitsVal (l : List Char) : ℕ :=
  l.foldl (fun acc c => acc * 10 + (c.toNat - 48)) 0

/-- Models the Python builtin `float()` on the string forms a `Retry-After`
header can carry: an optional sign, then a decimal mantissa (digits, with
an optional fractional part introduced by a dot, at least one digit in
total), then an optional exponent part.  Anything else — in particular the
HTTP-date form of `Retry-After` — fails with `none` (Python raises
`ValueError`).  The decimal value is taken exactly, as the rational
`± mantissa * 10^exponent` built with `mkRat`.  (`float()` also accepts
surrounding whitespace, underscores, `inf` and `nan`, and rounds to binary
floating point; those aspects are left out of the model.) -/
def pyFloat (s : String) : Option ℚ :=
  match s.toList with
  | [] => none
  | cs =>
      let (neg, cs1) : Bool × List Char :=
        if cs.headD ' ' = '+' then (false, cs.tail)
        else if cs.headD ' ' = '-' then (true, cs.tail)
        else (false, cs)
      let (mant, expPart) := cs1.span (fun c => c ≠ 'e' ∧ c ≠ 'E')
      let mantVal : Option (ℕ × ℕ) :=
        let (intPart, rest) := mant.span Char.isDigit
        match rest with
        | [] =>
            if intPart = [] then none
            else some (digitsVal intPart, 0)
        | '.' :: frac =>
            if frac.all Char.isDigit ∧ (intPart ≠ [] ∨ frac ≠ []) then
              some (digitsVal intPart * 10 ^ frac.length + digitsVal frac, frac.length)
            else none
        | _ => none
      let expVal : Option (Bool × ℕ) :=
        match expPart with
        | [] => some (false, 0)
        | _ :: rest =>
            let (eneg, digits) : Bool × List Char :=
              if rest.headD ' ' = '+' then (false, rest.tail)
              else if rest.headD ' ' = '-' then (true, rest.tail)
              else (false, rest)
            if digits ≠ [] ∧ digits.all Char.isDigit then
              some (eneg, digitsVal digits)
            else none
      match mantVal, expVal with
      | some (n, fracLen), some (eneg, e) =>
          let q : ℚ :=
            if eneg then mkRat n (10 ^ fracLen * 10 ^ e)
            else mkRat (n * 10 ^ e) (10 ^ fracLen)
          some (if neg then -q else q)
      | _, _ => none

/-- The `Retry-After` handling inside the 429 branch of
`_handle_http_error`: `response.headers.get("Retry-After")` may be absent;
a falsy (empty) value is not parsed; otherwise `float(value)` is attempted
and a `ValueError` leaves the result unset. -/
def parseRetryAfter (header : Option String) : Option ℚ :=
  match header with
  | none => none
  | some s => if s = "" then none else pyFloat s

/-- `Client._handle_http_error`, as a function of the response status code
and the `Retry-After` header: the raised error, first matching branch
wins. -/
def handle_http_error (status : ℕ) (retryAfterHeader : Option String) : RCError :=
  if status = 401 then
    .AuthenticationError (some status)
  else if status = 403 then
    .ForbiddenError (some status)
  else if status = 404 then
    .NotFoundError (some status)
  else if status = 429 then
    .RateLimitError (some status) (parseRetryAfter retryAfterHeader)
  else if 400 ≤ status ∧ status < 500 then
    .ClientResponseError (some status)
  else if 500 ≤ status ∧ status < 600 then
    .ServerError (some status)
  else
    .HTTPError (some status)

/-! ## Request pipeline (`Client.request` in `src/rest_client/clients.py`)

The transport (`httpx`) is external: one attempt's transport behavior is an
element of `TransportOutcome` (a response, or one of the transport
exceptions the code catches), and a whole call supplies one outcome per
attempt number.  The middleware list is taken empty (the default), so
`call_next` goes straight to `_core_request`. -/

/-- An `httpx.Response`, reduced to the attributes the pipeline reads:
the status code and the `Retry-After` header. -/
structure Resp where
  status_code : ℕ
  retry_after_header : Option String
  deriving DecidableEq, Repr

/-- What one transport call does: return a response, or raise one of the
`httpx` exception groups the code catches (connect/read/write/generic
timeout, network error). -/
inductive TransportOutcome where
  | response (r : Resp)
  | connectTimeout
  | readTimeout
  | writeTimeout
  | otherTimeout
  | networkError
  deriving DecidableEq, Repr

/-- State threaded through the retry loop of one `Client.request` call:
the circuit breaker (whose exception type is `TransportOutcome`, the
`httpx` exception being reported) plus counters for the observable side
effects — transport calls made and cache-store calls made. -/
structure CoreState where
  cb : CircuitBreaker TransportOutcome
  transport_calls : ℕ
  cache_set_calls : ℕ

/-- Models `httpx.Response.raise_for_status` (external collaborator): it
raises `HTTPStatusError` exactly on non-2xx statuses. -/
def raiseForStatusFails (status : ℕ) : Bool :=
  decide (¬ (200 ≤ status ∧ status < 300))

/-- `_request_attempt` inside `Client.request`: check breaker admission
(raising `CircuitBreakerOpenError` with no transport call on refusal), then
perform the transport call and handle its outcome — on a 2xx response
record a success and cache it when eligible; on an `HTTPStatusError` report
failure or success to the breaker per `included_status_codes` and raise the
classified error; on transport exceptions record a failure and raise the
wrapped error.  `idem` says whether `method.upper()` is `GET`/`HEAD`;
`cacheable` is the configured `cacheable_status_codes`; `tTimes k` is the
`time.time()` reading during attempt `k`; `transports k` the transport
outcome of attempt `k`. -/
def request_attempt (idem : Bool) (cacheable : List ℕ) (tTimes : ℕ → ℚ)
    (transports : ℕ → TransportOutcome) (k : ℕ) (s : CoreState) :
    Except RCError Resp × CoreState :=
  let (allowed, cb1) := s.cb.allow_request (tTimes k)
  if ¬ allowed then
    (.error .CircuitBreakerOpenError, { s with cb := cb1 })
  else
    let s1 : CoreState := { s with cb := cb1, transport_calls := s.transport_calls + 1 }
    match transports k with
    | .response r =>
        if raiseForStatusFails r.status_code then
          let cb2 :=
            if r.status_code ∈ s1.cb.config.included_status_codes then
              s1.cb.record_failure (.response r) (tTimes k)
            else
              s1.cb.record_success
          (.error (handle_http_error r.status_code r.retry_after_header), { s1 with cb := cb2 })
        else
          let s2 : CoreState :=
            { s1 with
                cb := s1.cb.record_success
                cache_set_calls :=
                  if idem ∧ r.status_code ∈ cacheable then
                    s1.cache_set_calls + 1
                  else
                    s1.cache_set_calls }
          (.ok r, s2)
    | .connectTimeout =>
        (.error .ConnectTimeoutError,
          { s1 with cb := s1.cb.record_failure .connectTimeout (tTimes k) })
    | .readTimeout =>
        (.error .ReadTimeoutError,
          { s1 with cb := s1.cb.record_failure .readTimeout (tTimes k) })
    | .writeTimeout =>
        (.error .WriteTimeoutError,
          { s1 with cb := s1.cb.record_failure .writeTimeout (tTimes k) })
    | .otherTimeout =>
        (.error .TimeoutError,
          { s1 with cb := s1.cb.record_failure .otherTimeout (tTimes k) })
    | .networkError =>
        (.error .ConnectionError,
          { s1 with cb := s1.cb.record_failure .networkError (tTimes k) })

/-- Observable side-effect trace of one `Client.request` call: how many
times `self.cache.get` was consulted and how many transport calls were
made. -/
structure RequestTrace where
  cache_get_calls : ℕ
  transport_calls : ℕ
  deriving DecidableEq, Repr

/-- `Client.request` (with the default empty middleware list): rate-limit
gate — a refusal raises the client-side
`RateLimitError("Client-side rate limit exceeded")` (no response, no
`retry_after`) at once — then cache lookup for `GET`/`HEAD`, then the
retry-wrapped, breaker-gated transport attempts.  `backend_get` is the
cache backend's content (external collaborator); `CacheManager.get`
consults it only when caching is enabled.  Returns the outcome, the
updated rate limiter and core state, and the side-effect trace. -/
def Client.request (rl : RateLimiter) (core : CoreState) (retry_cfg : RetryConfig)
    (cache_enabled : Bool) (cacheable : List ℕ) (backend_get : String → Option Resp)
    (method url params : String) (now : ℚ) (tTimes : ℕ → ℚ)
    (transports : ℕ → TransportOutcome) :
    Except RCError Resp × RateLimiter × CoreState × RequestTrace :=
  let (ok, rl1) := rl.acquire none now
  if ¬ ok then
    (.error (.RateLimitError none none), rl1, core, ⟨0, 0⟩)
  else
    let key := method ++ ":" ++ url ++ ":" ++ params
    let idem : Bool := method.toUpper = "GET" ∨ method.toUpper = "HEAD"
    let cached : Option Resp :=
      if idem then (if cache_enabled then backend_get key else none) else none
    let gets : ℕ := if idem then 1 else 0
    match cached with
    | some r => (.ok r, rl1, core, ⟨gets, 0⟩)
    | none =>
        let out := retryRun retry_cfg (request_attempt idem cacheable tTimes transports) core
        (out.result, rl1, out.state,
          ⟨gets, out.state.transport_calls - core.transport_calls⟩)

/-! # Theorems -/

/-- A sample breaker configuration (the defaults of `CircuitBreakerConfig`),
used for concrete instances. -/
def sampleCBConfig : CircuitBreakerConfig Unit :=
  { failure_threshold := 5, success_threshold := 2, reset_timeout := 30
    half_open_max_calls := 3, excluded_exceptions := []
    included_status_codes := [500, 502, 503, 504] }

/-- Shape of `RateLimiter.acquire`: its result is the global bucket's
verdict, with only the global bucket updated. -/
theorem RateLimiter.acquire_eq (rl : RateLimiter) (key : Option String) (now : ℚ) :
    rl.acquire key now =
      ((rl.global_limiter.acquire now).1,
        { rl with global_limiter := (rl.global_limiter.acquire now).2 }) := by
  unfold RateLimiter.acquire
  rcases h : rl.global_limiter.acquire now with ⟨ok, g⟩
  cases ok <;> simp

/-- C10: `RateLimiter.acquire` returns the same result and performs the same
state change for every pair of keys (including `None`): only the global
token bucket is consulted and mutated, and the per-key `_limiters`
dictionary is never read or written, so the admission decision is
independent of the supplied key. -/
theorem rate_limiter_acquire_key_independent :
    ∀ (rl : RateLimiter) (k1 k2 : Option String) (now : ℚ),
      rl.acquire k1 now = rl.acquire k2 now ∧
      (rl.acquire k1 now).2.limiters = rl.limiters ∧
      (rl.acquire k1 now).2.global_limiter = (rl.global_limiter.acquire now).2 ∧
      (rl.acquire k1 now).1 = (rl.global_limiter.acquire now).1 := by
  intro rl k1 k2 now
  simp [RateLimiter.acquire_eq]

/-- C2: refuted by the code — `allow_request` on a `HALF_OPEN` breaker
returns `true` unconditionally and changes nothing; no outstanding-call
counter exists and `half_open_max_calls` is never read, so admission is
not capped.  (The spec itself flags this as the code not enforcing the
configuration's evident intent.) -/
theorem allow_request_half_open_unconditional {ε : Type} (cb : CircuitBreaker ε) (now : ℚ)
    (h : cb.state = .HALF_OPEN) : cb.allow_request now = (true, cb) := by
  simp [CircuitBreaker.allow_request, h]

/-- Witness for `allow_request_half_open_unconditional`: a `HALF_OPEN`
breaker with `half_open_max_calls = 3` and no outstanding-call state at all
still admits. -/
theorem allow_request_half_open_unconditional_witness :
    CircuitBreaker.allow_request
      { config := sampleCBConfig, state := .HALF_OPEN
        metrics := .init, opened_at := some 0 } 1 =
      (true,
        { config := sampleCBConfig, state := .HALF_OPEN
          metrics := .init, opened_at := some 0 }) :=
  allow_request_half_open_unconditional _ _ rfl

/-- C3 counterexample: an `OPEN` breaker checked at elapsed time exactly
equal to `reset_timeout` (opened at 0, `reset_timeout = 30`, checked at 30)
is refused and left unchanged — the code requires elapsed time strictly
greater than `reset_timeout` (`>`), so the claimed transition at equality
does not occur. -/
theorem allow_request_open_at_exact_timeout_refuses :
    CircuitBreaker.allow_request
        { config := sampleCBConfig, state := .OPEN
          metrics := .init, opened_at := some 0 } 30 =
      (false,
        { config := sampleCBConfig, state := .OPEN
          metrics := .init, opened_at := some 0 }) ∧
    (30 : ℚ) - 0 = sampleCBConfig.reset_timeout := by
  constructor
  · simp [CircuitBreaker.allow_request, sampleCBConfig]
  · norm_num [sampleCBConfig]

/-- C3 (amended): for an `OPEN` breaker, `allow_request` with elapsed time
since entering Open strictly greater than `reset_timeout` transitions the
breaker to `HALF_OPEN`, resets both consecutive counters, and returns
`true`; with elapsed time less than or equal to `reset_timeout` it returns
`false` and changes nothing (in particular, at elapsed time exactly equal
to `reset_timeout` no transition occurs). -/
theorem allow_request_open_strict_timeout {ε : Type} (cb : CircuitBreaker ε) (t now : ℚ)
    (hst : cb.state = .OPEN) (hop : cb.opened_at = some t) :
    (now - t > cb.config.reset_timeout →
        cb.allow_request now = (true, cb.transition_to_half_open) ∧
        (cb.allow_request now).2.state = .HALF_OPEN ∧
        (cb.allow_request now).2.metrics.failure_count = 0 ∧
        (cb.allow_request now).2.metrics.success_count = 0) ∧
    (now - t ≤ cb.config.reset_timeout → cb.allow_request now = (false, cb)) := by
  constructor
  · intro hgt
    have heq : cb.allow_request now = (true, cb.transition_to_half_open) := by
      simp [CircuitBreaker.allow_request, hst, hop, hgt]
    refine ⟨heq, ?_, ?_, ?_⟩ <;>
      simp [heq, CircuitBreaker.transition_to_half_open]
  · intro hle
    simp [CircuitBreaker.allow_request, hst, hop, not_lt.mpr hle]

/-- Witness for `allow_request_open_strict_timeout`: the breaker opened at
time 0 with `reset_timeout = 30`, checked at time 31 (admitted, moved to
`HALF_OPEN`) and at time 30 (refused, unchanged). -/
theorem allow_request_open_strict_timeout_witness :
    ((31 : ℚ) - 0 >
        (CircuitBreaker.mk sampleCBConfig .OPEN .init (some 0)).config.reset_timeout →
      (CircuitBreaker.mk sampleCBConfig .OPEN .init (some 0)).allow_request 31 =
          (true, (CircuitBreaker.mk sampleCBConfig .OPEN .init (some 0)).transition_to_half_open) ∧
        ((CircuitBreaker.mk sampleCBConfig .OPEN .init (some 0)).allow_request 31).2.state =
          .HALF_OPEN ∧
        ((CircuitBreaker.mk sampleCBConfig .OPEN .init
          (some 0)).allow_request 31).2.metrics.failure_count = 0 ∧
        ((CircuitBreaker.mk sampleCBConfig .OPEN .init
          (some 0)).allow_request 31).2.metrics.success_count = 0) ∧
    ((31 : ℚ) - 0 ≤
        (CircuitBreaker.mk sampleCBConfig .OPEN .init (some 0)).config.reset_timeout →
      (CircuitBreaker.mk sampleCBConfig .OPEN .init (some 0)).allow_request 31 =
        (false, CircuitBreaker.mk sampleCBConfig .OPEN .init (some 0))) :=
  allow_request_open_strict_timeout _ 0 31 rfl rfl

/-- `allow_request` never changes the configuration. -/
theorem CircuitBreaker.allow_request_config {ε : Type} (cb : CircuitBreaker ε) (now : ℚ) :
    (cb.allow_request now).2.config = cb.config := by
  unfold CircuitBreaker.allow_request
  cases hst : cb.state <;> simp [hst]
  split <;> simp [CircuitBreaker.transition_to_half_open]

/-- `record_success` never increases the consecutive-failure counter. -/
theorem CircuitBreaker.record_success_failure_count_le {ε : Type} (cb : CircuitBreaker ε) :
    (cb.record_success).metrics.failure_count ≤ cb.metrics.failure_count := by
  unfold CircuitBreaker.record_success
  cases hst : cb.state <;> simp [hst]
  split <;> simp [CircuitBreaker.transition_to_closed]

/-- C8: a `record_failure` call whose outcome matches an excluded-exception
predicate leaves the breaker completely unchanged (state, every metric
field, no transition); and a failure outcome whose status code is not in
`included_status_codes` is reported to the breaker as a success instead, so
the consecutive-failure counter is not incremented — while the attempt
itself still raises the classified error to the caller. -/
theorem excluded_and_non_included_failures {ε : Type} (cb : CircuitBreaker ε) (e : ε)
    (now : ℚ) (status : ℕ) (idem : Bool) (cacheable : List ℕ) (tTimes : ℕ → ℚ)
    (transports : ℕ → TransportOutcome) (k : ℕ) (s : CoreState) (r : Resp)
    (hexc : cb.config.excluded_exceptions.any (fun isinst => isinst e) = true)
    (hnin : status ∉ cb.config.included_status_codes)
    (htr : transports k = .response r)
    (hallow : (s.cb.allow_request (tTimes k)).1 = true)
    (hraise : raiseForStatusFails r.status_code = true)
    (hnin2 : r.status_code ∉ s.cb.config.included_status_codes) :
    cb.record_failure e now = cb ∧
    clientReportStatusFailure cb status e now = cb.record_success ∧
    (clientReportStatusFailure cb status e now).metrics.failure_count ≤
      cb.metrics.failure_count ∧
    (request_attempt idem cacheable tTimes transports k s).1 =
      .error (handle_http_error r.status_code r.retry_after_header) ∧
    (request_attempt idem cacheable tTimes transports k s).2.cb =
      ((s.cb.allow_request (tTimes k)).2).record_success := by
  refine ⟨?_, ?_, ?_, ?_, ?_⟩
  · simp [CircuitBreaker.record_failure, hexc]
  · simp [clientReportStatusFailure, hnin]
  · simp [clientReportStatusFailure, hnin]
    exact CircuitBreaker.record_success_failure_count_le cb
  all_goals
    unfold request_attempt
    rcases h : s.cb.allow_request (tTimes k) with ⟨allowed, cb1⟩
    have hcfg : cb1.config = s.cb.config := by
      have := CircuitBreaker.allow_request_config s.cb (tTimes k)
      rw [h] at this
      exact this
    rw [h] at hallow
    simp only at hallow
    subst hallow
    simp [htr, hraise, hcfg, hnin2]

/-- Witness for `excluded_and_non_included_failures`: a Closed breaker whose
excluded predicate matches everything ignores a failure report; status 404
is outside the default `included_status_codes`; a 404 response on an
admitted attempt yields the `NotFoundError` while the breaker receives a
success report. -/
theorem excluded_and_non_included_failures_witness :
    CircuitBreaker.record_failure
        { config := { sampleCBConfig with excluded_exceptions := [fun _ => true] }
          state := .CLOSED, metrics := .init, opened_at := none } () 1 =
      { config := { sampleCBConfig with excluded_exceptions := [fun _ => true] }
        state := .CLOSED, metrics := .init, opened_at := none } ∧
    clientReportStatusFailure
        { config := { sampleCBConfig with excluded_exceptions := [fun _ => true] }
          state := .CLOSED, metrics := .init, opened_at := none } 404 () 1 =
      CircuitBreaker.record_success
        { config := { sampleCBConfig with excluded_exceptions := [fun _ => true] }
          state := .CLOSED, metrics := .init, opened_at := none } ∧
    (clientReportStatusFailure
        { config := { sampleCBConfig with excluded_exceptions := [fun _ => true] }
          state := .CLOSED, metrics := .init, opened_at := none } 404 () 1).metrics.failure_count ≤
      CircuitBreakerMetrics.init.failure_count ∧
    (request_attempt false []
        (fun _ => 0) (fun _ => .response ⟨404, none⟩) 1
        ⟨{ config := { failure_threshold := 5, success_threshold := 2, reset_timeout := 30
                       half_open_max_calls := 3, excluded_exceptions := []
                       included_status_codes := [500, 502, 503, 504] }
           state := .CLOSED, metrics := .init, opened_at := none }, 0, 0⟩).1 =
      .error (handle_http_error 404 none) ∧
    (request_attempt false []
        (fun _ => 0) (fun _ => .response ⟨404, none⟩) 1
        ⟨{ config := { failure_threshold := 5, success_threshold := 2, reset_timeout := 30
                       half_open_max_calls := 3, excluded_exceptions := []
                       included_status_codes := [500, 502, 503, 504] }
           state := .CLOSED, metrics := .init, opened_at := none }, 0, 0⟩).2.cb =
      CircuitBreaker.record_success
        ((CircuitBreaker.allow_request
            { config := { failure_threshold := 5, success_threshold := 2, reset_timeout := 30
                          half_open_max_calls := 3, excluded_exceptions := []
                          included_status_codes := [500, 502, 503, 504] }
              state := .CLOSED, metrics := .init, opened_at := none } 0).2) :=
  excluded_and_non_included_failures _ () 1 404 false [] (fun _ => 0)
    (fun _ => .response ⟨404, none⟩) 1 _ ⟨404, none⟩
    rfl (by decide) rfl rfl rfl (by decide)

/-- C7: the status-to-error mapping of `_handle_http_error`, first match
wins: 401 → Authentication, 403 → Forbidden, 404 → NotFound, 429 →
RateLimit carrying the parsed numeric `Retry-After` seconds (unset when the
header is absent, empty, or non-numeric — date-form values are not
parsed), any other 4xx → ClientResponse, any 5xx → Server, anything else →
generic HTTP error.  Concretely, `Retry-After: 2` parses to 2 seconds and a
date-form value is left unset. -/
theorem handle_http_error_mapping :
    ∀ hdr : Option String,
      handle_http_error 401 hdr = .AuthenticationError (some 401) ∧
      handle_http_error 403 hdr = .ForbiddenError (some 403) ∧
      handle_http_error 404 hdr = .NotFoundError (some 404) ∧
      handle_http_error 429 hdr = .RateLimitError (some 429) (parseRetryAfter hdr) ∧
      (∀ s : ℕ, 400 ≤ s → s < 500 → s ∉ ([401, 403, 404, 429] : List ℕ) →
        handle_http_error s hdr = .ClientResponseError (some s)) ∧
      (∀ s : ℕ, 500 ≤ s → s < 600 → handle_http_error s hdr = .ServerError (some s)) ∧
      (∀ s : ℕ, s < 400 ∨ 600 ≤ s → handle_http_error s hdr = .HTTPError (some s)) ∧
      (∀ v : String, ∀ q : ℚ, pyFloat v = some q → v ≠ "" →
        parseRetryAfter (some v) = some q) ∧
      (∀ v : String, pyFloat v = none → parseRetryAfter (some v) = none) ∧
      parseRetryAfter none = none ∧
      parseRetryAfter (some "2") = some 2 ∧
      parseRetryAfter (some "Wed, 21 Oct 2015 07:28:00 GMT") = none := by
  intro hdr
  refine ⟨by simp [handle_http_error], by simp [handle_http_error],
    by simp [handle_http_error], by simp [handle_http_error],
    ?_, ?_, ?_, ?_, ?_, rfl, by decide, by decide⟩
  · intro s h4 h5 hni
    simp only [List.mem_cons, List.mem_singleton, not_or] at hni
    obtain ⟨h1, h2, h3, h6, -⟩ := hni
    simp [handle_http_error, h1, h2, h3, h6, h4, h5]
  · intro s h5 h6
    have h1 : s ≠ 401 := by omega
    have h2 : s ≠ 403 := by omega
    have h3 : s ≠ 404 := by omega
    have h4 : s ≠ 429 := by omega
    have h7 : ¬ (400 ≤ s ∧ s < 500) := by omega
    simp [handle_http_error, h1, h2, h3, h4, h7, h5, h6]
  · intro s hs
    have h1 : s ≠ 401 := by omega
    have h2 : s ≠ 403 := by omega
    have h3 : s ≠ 404 := by omega
    have h4 : s ≠ 429 := by omega
    have h7 : ¬ (400 ≤ s ∧ s < 500) := by omega
    have h8 : ¬ (500 ≤ s ∧ s < 600) := by omega
    simp [handle_http_error, h1, h2, h3, h4, h7, h8]
  · intro v q hq hv
    simp [parseRetryAfter, hv, hq]
  · intro v hv
    by_cases h : v = "" <;> simp [parseRetryAfter, h, hv]

/-- Witness for `handle_http_error_mapping`: a 429 carrying
`Retry-After: 2` yields the rate-limit error with 2.0 seconds, a 418
response yields `ClientResponseError`, and a 503 yields `ServerError`. -/
theorem handle_http_error_mapping_witness :
    handle_http_error 429 (some "2") = .RateLimitError (some 429) (parseRetryAfter (some "2")) ∧
    handle_http_error 418 (some "2") = .ClientResponseError (some 418) ∧
    handle_http_error 503 (some "2") = .ServerError (some 503) ∧
    parseRetryAfter (some "2") = some 2 :=
  ⟨(handle_http_error_mapping (some "2")).2.2.2.1,
    (handle_http_error_mapping (some "2")).2.2.2.2.1 418 (by decide) (by decide) (by decide),
    (handle_http_error_mapping (some "2")).2.2.2.2.2.1 503 (by decide) (by decide),
    (handle_http_error_mapping (some "2")).2.2.2.2.2.2.2.2.2.2.1⟩

/-- C5 counterexample: the claimed classification — retryable iff
transport-level connection/timeout failure or HTTP-status failure with
status in the configured retry set — fails at an `HTTPError` whose
`status_code` is `0` with retry set `{0}`: `0` is in the set, but the
Python truthiness test `if exception.status_code and ...` treats status
`0` as absent and the classifier returns not-retryable. -/
theorem should_retry_truthiness_counterexample :
    ¬ (should_retry_exception (.HTTPError (some 0)) [0] = true ↔
        ((RCError.HTTPError (some 0)).isConnectionError = true ∨
          (RCError.HTTPError (some 0)).isTimeoutError = true ∨
          ((RCError.HTTPError (some 0)).isHTTPError = true ∧
            ∃ c, (RCError.HTTPError (some 0)).status_code = some c ∧ c ∈ ([0] : List ℕ)))) := by
  intro h
  have hb := h.mpr (Or.inr (Or.inr ⟨by decide, ⟨0, rfl, by decide⟩⟩))
  exact absurd hb (by decide)

/-- C5 (amended): an outcome is classified retryable iff it is a
transport-level connection or timeout failure, or an HTTP-status failure
whose status code is nonzero (Python truthiness treats status 0 as absent)
and in the configured retry-status set; a `CircuitBreakerOpenError` outcome
is never retryable, the retry loop stops at it immediately returning it
unchanged, and the admission-refused attempt that raises it performs no
transport call. -/
theorem retry_classification_amended (e : RCError) (statuses : List ℕ) :
    (should_retry_exception e statuses = true ↔
      (e.isConnectionError = true ∨ e.isTimeoutError = true ∨
        (e.isHTTPError = true ∧ ∃ c, e.status_code = some c ∧ c ≠ 0 ∧ c ∈ statuses))) ∧
    should_retry_exception .CircuitBreakerOpenError statuses = false ∧
    (∀ (σ α : Type) (cfg : RetryConfig) (step : ℕ → σ → Except RCError α × σ)
        (fuel k : ℕ) (s : σ),
      (step k s).1 = .error .CircuitBreakerOpenError →
      retryGo cfg step fuel k s =
        ⟨.error .CircuitBreakerOpenError, (step k s).2, k, []⟩) ∧
    (∀ (idem : Bool) (cacheable : List ℕ) (tTimes : ℕ → ℚ)
        (transports : ℕ → TransportOutcome) (k : ℕ) (s : CoreState),
      (s.cb.allow_request (tTimes k)).1 = false →
      request_attempt idem cacheable tTimes transports k s =
          (.error .CircuitBreakerOpenError,
            { s with cb := (s.cb.allow_request (tTimes k)).2 }) ∧
        (request_attempt idem cacheable tTimes transports k s).2.transport_calls =
          s.transport_calls) := by
  refine ⟨?_, rfl, ?_, ?_⟩
  · rcases e with s | s | s | s | s | ⟨s, ra⟩ | s | _ | _ | _ | _ | _ | _ <;>
      first
        | (rcases s with - | c <;>
            simp [should_retry_exception, RCError.isConnectionError,
              RCError.isTimeoutError, RCError.isHTTPError, RCError.status_code])
        | (simp [should_retry_exception, RCError.isConnectionError,
            RCError.isTimeoutError, RCError.isHTTPError, RCError.status_code])
  · intro σ α cfg step fuel k s hs
    unfold retryGo
    rcases h : step k s with ⟨o, s1⟩
    rw [h] at hs
    simp only at hs
    subst hs
    simp [should_retry_exception, RCError.isConnectionError, RCError.isTimeoutError,
      RCError.isHTTPError]
  · intro idem cacheable tTimes transports k s hfalse
    unfold request_attempt
    rcases h : s.cb.allow_request (tTimes k) with ⟨allowed, cb1⟩
    rw [h] at hfalse
    simp only at hfalse
    subst hfalse
    simp

/-- Witness for `retry_classification_amended`: a 503 `ServerError` with
retry set `{503}` is retryable; `CircuitBreakerOpenError` is not, the
retry loop returns it at once, and a refused attempt (breaker Open, not
timed out) makes no transport call. -/
theorem retry_classification_amended_witness :
    should_retry_exception (.ServerError (some 503)) [503] = true ∧
    should_retry_exception .CircuitBreakerOpenError [503] = false ∧
    retryGo ⟨3, [503], 1/2, 60⟩
        (pureStep (α := Resp) (fun _ => .error .CircuitBreakerOpenError)) 2 1 () =
      ⟨.error .CircuitBreakerOpenError,
        (pureStep (α := Resp) (fun _ => .error .CircuitBreakerOpenError) 1 ()).2, 1, []⟩ ∧
    (request_attempt false [] (fun _ => 0) (fun _ => .networkError) 1
        ⟨{ config := { failure_threshold := 5, success_threshold := 2, reset_timeout := 30
                       half_open_max_calls := 3, excluded_exceptions := []
                       included_status_codes := [500, 502, 503, 504] }
           state := .OPEN, metrics := .init, opened_at := some 0 }, 0, 0⟩).2.transport_calls =
      (0 : ℕ) :=
  ⟨(retry_classification_amended (.ServerError (some 503)) [503]).1.mpr
      (Or.inr (Or.inr ⟨by decide, ⟨503, rfl, by decide, by decide⟩⟩)),
    (retry_classification_amended .CircuitBreakerOpenError [503]).2.1,
    (retry_classification_amended .CircuitBreakerOpenError [503]).2.2.1
      Unit Resp ⟨3, [503], 1/2, 60⟩
      (pureStep (fun _ => .error .CircuitBreakerOpenError)) 2 1 () rfl,
    ((retry_classification_amended .CircuitBreakerOpenError [503]).2.2.2
      false [] (fun _ => 0) (fun _ => .networkError) 1
      ⟨{ config := { failure_threshold := 5, success_threshold := 2, reset_timeout := 30
                     half_open_max_calls := 3, excluded_exceptions := []
                     included_status_codes := [500, 502, 503, 504] }
         state := .OPEN, metrics := .init, opened_at := some 0 }, 0, 0⟩
      (by simp [CircuitBreaker.allow_request]; decide)).2⟩

/-- An immediate `acquire` (no time elapsed) from a bucket holding `n ≥ 1`
tokens (with `n ≤ capacity`) succeeds and consumes one token. -/
theorem TokenBucket.acquire_immediate_pos (r cap t : ℚ) (n : ℕ)
    (hcap : (n : ℚ) ≤ cap) (hn : 1 ≤ n) :
    TokenBucket.acquire ⟨r, cap, (n : ℚ), t⟩ t = (true, ⟨r, cap, (n : ℚ) - 1, t⟩) := by
  have h1 : (1 : ℚ) ≤ (n : ℚ) := by exact_mod_cast hn
  unfold TokenBucket.acquire
  simp [min_eq_right hcap, h1]

/-- An immediate `acquire` from an empty bucket fails and changes nothing. -/
theorem TokenBucket.acquire_immediate_zero (r cap t : ℚ) (hcap0 : 0 ≤ cap) :
    TokenBucket.acquire ⟨r, cap, 0, t⟩ t = (false, ⟨r, cap, 0, t⟩) := by
  unfold TokenBucket.acquire
  simp [min_eq_right hcap0]

/-- One-step unfolding of `acquireRepeat`. -/
theorem TokenBucket.acquireRepeat_succ (b : TokenBucket) (now : ℚ) (n : ℕ) :
    b.acquireRepeat now (n + 1) =
      ((b.acquire now).1 :: ((b.acquire now).2.acquireRepeat now n).1,
        ((b.acquire now).2.acquireRepeat now n).2) := rfl

/-- A bucket holding `n` tokens (no time elapsed, `n ≤ capacity`) admits
exactly its `n` tokens' worth of immediate acquisitions and rejects the
next. -/
theorem TokenBucket.acquireRepeat_exact (r cap t : ℚ) (n : ℕ)
    (hcap : (n : ℚ) ≤ cap) (hcap0 : 0 ≤ cap) :
    TokenBucket.acquireRepeat ⟨r, cap, (n : ℚ), t⟩ t (n + 1) =
      (List.replicate n true ++ [false], ⟨r, cap, 0, t⟩) := by
  induction n with
  | zero =>
      simp only [Nat.cast_zero]
      simp [TokenBucket.acquireRepeat,
        TokenBucket.acquire_immediate_zero r cap t hcap0]
  | succ m ih =>
      have hstep := TokenBucket.acquire_immediate_pos r cap t (m + 1) (by exact_mod_cast hcap)
        (by omega)
      have hcast : ((m + 1 : ℕ) : ℚ) - 1 = ((m : ℕ) : ℚ) := by push_cast; ring
      have hcap' : ((m : ℕ) : ℚ) ≤ cap := by
        refine le_trans ?_ hcap
        push_cast
        linarith
      rw [TokenBucket.acquireRepeat_succ, hstep]
      dsimp only
      rw [hcast, ih hcap']
      simp [List.replicate_succ]

/-- C6: every `acquire` under nonnegative rate and monotone time preserves
`0 ≤ tokens ≤ capacity`, leaves the capacity unchanged, and sets the token
count to the refilled amount `min capacity (tokens + elapsed * rate)` minus
one exactly when a token was available; and a fresh bucket at capacity `C`
admits exactly `C` immediate acquisitions and rejects the next. -/
theorem token_bucket_invariant_and_exact_admissions (b : TokenBucket) (now : ℚ)
    (C : ℕ) (rate t : ℚ)
    (h0 : 0 ≤ b.tokens) (hc : b.tokens ≤ b.capacity) (hr : 0 ≤ b.rate)
    (hm : b.last_refill ≤ now) :
    (0 ≤ (b.acquire now).2.tokens ∧
      (b.acquire now).2.tokens ≤ (b.acquire now).2.capacity ∧
      (b.acquire now).2.capacity = b.capacity ∧
      (b.acquire now).2.tokens =
        min b.capacity (b.tokens + (now - b.last_refill) * b.rate) -
          (if 1 ≤ min b.capacity (b.tokens + (now - b.last_refill) * b.rate)
            then 1 else 0)) ∧
    (TokenBucket.init rate C t).acquireRepeat t (C + 1) =
      (List.replicate C true ++ [false], ⟨rate, C, 0, t⟩) := by
  constructor
  · have hcap0 : 0 ≤ b.capacity := le_trans h0 hc
    have helapsed : 0 ≤ now - b.last_refill := sub_nonneg.mpr hm
    have hT0 : 0 ≤ min b.capacity (b.tokens + (now - b.last_refill) * b.rate) :=
      le_min hcap0 (add_nonneg h0 (mul_nonneg helapsed hr))
    have hTc : min b.capacity (b.tokens + (now - b.last_refill) * b.rate) ≤ b.capacity :=
      min_le_left _ _
    unfold TokenBucket.acquire
    dsimp only
    split_ifs with h1
    · dsimp only
      exact ⟨by linarith, by linarith, rfl, rfl⟩
    · dsimp only
      exact ⟨hT0, hTc, rfl, by ring⟩
  · exact TokenBucket.acquireRepeat_exact rate C t C (le_refl _) (by positivity)

/-- Witness for `token_bucket_invariant_and_exact_admissions`: a full
one-token bucket acquired immediately, and a fresh two-token bucket
admitting exactly two acquisitions. -/
theorem token_bucket_invariant_and_exact_admissions_witness :
    (0 ≤ (TokenBucket.acquire ⟨1, 1, 1, 0⟩ 0).2.tokens ∧
      (TokenBucket.acquire ⟨1, 1, 1, 0⟩ 0).2.tokens ≤
        (TokenBucket.acquire ⟨1, 1, 1, 0⟩ 0).2.capacity ∧
      (TokenBucket.acquire ⟨1, 1, 1, 0⟩ 0).2.capacity = (1 : ℚ) ∧
      (TokenBucket.acquire ⟨1, 1, 1, 0⟩ 0).2.tokens =
        min (1 : ℚ) ((1 : ℚ) + ((0 : ℚ) - 0) * 1) -
          (if 1 ≤ min (1 : ℚ) ((1 : ℚ) + ((0 : ℚ) - 0) * 1) then 1 else 0)) ∧
    (TokenBucket.init 1 2 0).acquireRepeat 0 (2 + 1) =
      (List.replicate 2 true ++ [false], ⟨1, 2, 0, 0⟩) :=
  token_bucket_invariant_and_exact_admissions ⟨1, 1, 1, 0⟩ 0 2 1 0
    (by decide) (by decide) (by decide) (by decide)

/-- Explicit form of `record_failure` on a Closed breaker for a
non-excluded exception: count the failure, and open when the consecutive
count reaches the threshold. -/
theorem CircuitBreaker.record_failure_closed {ε : Type} (cb : CircuitBreaker ε) (e : ε)
    (now : ℚ) (hst : cb.state = .CLOSED)
    (hex : cb.config.excluded_exceptions.any (fun isinst => isinst e) = false) :
    cb.record_failure e now =
      if cb.metrics.failure_count + 1 ≥ cb.config.failure_threshold then
        { config := cb.config, state := .OPEN, opened_at := some now
          metrics := { failure_count := 0, success_count := 0
                       last_failure_time := some now
                       total_calls := cb.metrics.total_calls
                       total_failures := cb.metrics.total_failures + 1 } }
      else
        { config := cb.config, state := .CLOSED, opened_at := cb.opened_at
          metrics := { failure_count := cb.metrics.failure_count + 1
                       success_count := cb.metrics.success_count
                       last_failure_time := some now
                       total_calls := cb.metrics.total_calls
                       total_failures := cb.metrics.total_failures + 1 } } := by
  unfold CircuitBreaker.record_failure
  rw [hex, if_neg Bool.false_ne_true]
  dsimp only
  rw [hst]
  dsimp only
  split_ifs with h <;> simp [CircuitBreaker.transition_to_open]

/-- An Open breaker checked before its reset timeout has elapsed refuses
and stays unchanged. -/
theorem CircuitBreaker.allow_request_open_le {ε : Type} (cb : CircuitBreaker ε)
    (t now : ℚ) (hst : cb.state = .OPEN) (hop : cb.opened_at = some t)
    (h : now - t ≤ cb.config.reset_timeout) : cb.allow_request now = (false, cb) := by
  simp [CircuitBreaker.allow_request, hst, hop, not_lt.mpr h]

/-- Folding a run of included-status, non-excluded failure reports over a
Closed breaker whose consecutive-failure count needs exactly the length of
the run to reach the threshold ends with the breaker Open, both counters
zeroed, and the open timestamp equal to the last call's time. -/
theorem reportStatusFailures_opens {ε : Type} (calls : List (ℚ × ℕ × ε)) :
    ∀ (cb : CircuitBreaker ε),
      cb.state = .CLOSED →
      (∀ c ∈ calls, c.2.1 ∈ cb.config.included_status_codes ∧
        cb.config.excluded_exceptions.any (fun isinst => isinst c.2.2) = false) →
      cb.metrics.failure_count + calls.length = cb.config.failure_threshold →
      ∀ hne : calls ≠ [],
      (reportStatusFailures cb calls).state = .OPEN ∧
      (reportStatusFailures cb calls).metrics.failure_count = 0 ∧
      (reportStatusFailures cb calls).metrics.success_count = 0 ∧
      (reportStatusFailures cb calls).opened_at = some (calls.getLast hne).1 ∧
      (reportStatusFailures cb calls).config = cb.config := by
  induction calls with
  | nil =>
      intro cb _ _ _ hne
      exact absurd rfl hne
  | cons c rest ih =>
      intro cb hst hall hlen hne
      obtain ⟨t, st, e⟩ := c
      have hc := hall (t, st, e) (List.mem_cons_self _ _)
      have hrep : reportStatusFailures cb ((t, st, e) :: rest) =
          reportStatusFailures (clientReportStatusFailure cb st e t) rest := rfl
      have hstep : clientReportStatusFailure cb st e t = cb.record_failure e t := by
        simp [clientReportStatusFailure, hc.1]
      rw [hrep, hstep, CircuitBreaker.record_failure_closed cb e t hst hc.2]
      rcases rest with - | ⟨c2, rest2⟩
      · have hthr : cb.metrics.failure_count + 1 ≥ cb.config.failure_threshold := by
          simp only [List.length_cons, List.length_nil] at hlen
          omega
        rw [if_pos hthr]
        exact ⟨rfl, rfl, rfl, rfl, rfl⟩
      · have hlt : ¬ (cb.metrics.failure_count + 1 ≥ cb.config.failure_threshold) := by
          simp only [List.length_cons] at hlen
          omega
        rw [if_neg hlt]
        have hres := ih
          { config := cb.config, state := .CLOSED, opened_at := cb.opened_at
            metrics := { failure_count := cb.metrics.failure_count + 1
                         success_count := cb.metrics.success_count
                         last_failure_time := some t
                         total_calls := cb.metrics.total_calls
                         total_failures := cb.metrics.total_failures + 1 } }
          rfl
          (fun c hmem => hall c (List.mem_cons_of_mem _ hmem))
          (by simp only [List.length_cons] at hlen ⊢; omega)
          (List.cons_ne_nil c2 rest2)
        refine ⟨hres.1, hres.2.1, hres.2.2.1, ?_, hres.2.2.2.2⟩
        rw [hres.2.2.2.1]
        rw [List.getLast_cons (List.cons_ne_nil c2 rest2)]

/-- C1: a Closed breaker with a clean consecutive-failure count, given
`failure_threshold` consecutive failure reports whose statuses are all in
`included_status_codes` and whose exceptions match no excluded predicate,
ends Open with both consecutive counters reset to zero and the open
timestamp recorded (the last call's time); the very next `allow_request`
before `reset_timeout` has elapsed returns `false` and changes nothing. -/
theorem breaker_opens_after_threshold_failures {ε : Type} (cb : CircuitBreaker ε)
    (calls : List (ℚ × ℕ × ε)) (now : ℚ)
    (hst : cb.state = .CLOSED)
    (hfc : cb.metrics.failure_count = 0)
    (hlen : calls.length = cb.config.failure_threshold)
    (hne : calls ≠ [])
    (hall : ∀ c ∈ calls, c.2.1 ∈ cb.config.included_status_codes ∧
      cb.config.excluded_exceptions.any (fun isinst => isinst c.2.2) = false)
    (hnow : now - (calls.getLast hne).1 < cb.config.reset_timeout) :
    (reportStatusFailures cb calls).state = .OPEN ∧
    (reportStatusFailures cb calls).metrics.failure_count = 0 ∧
    (reportStatusFailures cb calls).metrics.success_count = 0 ∧
    (reportStatusFailures cb calls).opened_at = some (calls.getLast hne).1 ∧
    (reportStatusFailures cb calls).allow_request now =
      (false, reportStatusFailures cb calls) := by
  obtain ⟨h1, h2, h3, h4, h5⟩ :=
    reportStatusFailures_opens calls cb hst hall (by omega) hne
  refine ⟨h1, h2, h3, h4, ?_⟩
  refine CircuitBreaker.allow_request_open_le _ (calls.getLast hne).1 now h1 h4 ?_
  rw [h5]
  exact le_of_lt hnow

/-- Witness for `breaker_opens_after_threshold_failures`: a fresh breaker
with the default configuration (`failure_threshold = 5`), five included
5xx failures, then an admission check before the timeout. -/
theorem breaker_opens_after_threshold_failures_witness :
    (reportStatusFailures (CircuitBreaker.init sampleCBConfig)
        [(0, 500, ()), (0, 500, ()), (0, 502, ()), (0, 503, ()), (0, 504, ())]).state =
      .OPEN ∧
    (reportStatusFailures (CircuitBreaker.init sampleCBConfig)
        [(0, 500, ()), (0, 500, ()), (0, 502, ()), (0, 503, ()),
          (0, 504, ())]).metrics.failure_count = 0 ∧
    (reportStatusFailures (CircuitBreaker.init sampleCBConfig)
        [(0, 500, ()), (0, 500, ()), (0, 502, ()), (0, 503, ()),
          (0, 504, ())]).metrics.success_count = 0 ∧
    (reportStatusFailures (CircuitBreaker.init sampleCBConfig)
        [(0, 500, ()), (0, 500, ()), (0, 502, ()), (0, 503, ()), (0, 504, ())]).opened_at =
      some (([(0, 500, ()), (0, 500, ()), (0, 502, ()), (0, 503, ()),
        (0, 504, ())] : List (ℚ × ℕ × Unit)).getLast (by decide)).1 ∧
    (reportStatusFailures (CircuitBreaker.init sampleCBConfig)
        [(0, 500, ()), (0, 500, ()), (0, 502, ()), (0, 503, ()),
          (0, 504, ())]).allow_request 0 =
      (false, reportStatusFailures (CircuitBreaker.init sampleCBConfig)
        [(0, 500, ()), (0, 500, ()), (0, 502, ()), (0, 503, ()), (0, 504, ())]) :=
  breaker_opens_after_threshold_failures (CircuitBreaker.init sampleCBConfig)
    [(0, 500, ()), (0, 500, ()), (0, 502, ()), (0, 503, ()), (0, 504, ())] 0
    rfl rfl rfl (by decide) (by decide)
    (by simp [List.getLast]; decide)

section RetryLemmas

variable {σ α : Type} (cfg : RetryConfig) (step : ℕ → σ → Except RCError α × σ)

/-- `retryGo` on a successful attempt stops at once. -/
theorem retryGo_step_ok (fuel k : ℕ) (s s1 : σ) (v : α)
    (h : step k s = (.ok v, s1)) :
    retryGo cfg step fuel k s = ⟨.ok v, s1, k, []⟩ := by
  conv_lhs => rw [retryGo]
  rw [h]

/-- `retryGo` on a non-retryable error stops at once, returning it. -/
theorem retryGo_step_error_noretry (fuel k : ℕ) (s s1 : σ) (e : RCError)
    (h : step k s = (.error e, s1))
    (hr : should_retry_exception e cfg.retry_statuses = false) :
    retryGo cfg step fuel k s = ⟨.error e, s1, k, []⟩ := by
  conv_lhs => rw [retryGo]
  rw [h]
  simp [hr]

/-- `retryGo` with no attempts left re-raises the retryable error. -/
theorem retryGo_step_error_retry_zero (k : ℕ) (s s1 : σ) (e : RCError)
    (h : step k s = (.error e, s1))
    (hr : should_retry_exception e cfg.retry_statuses = true) :
    retryGo cfg step 0 k s = ⟨.error e, s1, k, []⟩ := by
  conv_lhs => rw [retryGo]
  rw [h]
  simp [hr]

/-- `retryGo` on a retryable error with attempts left waits the backoff
delay and recurses. -/
theorem retryGo_step_error_retry_succ (fuel k : ℕ) (s s1 : σ) (e : RCError)
    (h : step k s = (.error e, s1))
    (hr : should_retry_exception e cfg.retry_statuses = true) :
    retryGo cfg step (fuel + 1) k s =
      ⟨(retryGo cfg step fuel (k + 1) s1).result,
        (retryGo cfg step fuel (k + 1) s1).state,
        (retryGo cfg step fuel (k + 1) s1).attempts,
        backoffDelay cfg (k + 1) :: (retryGo cfg step fuel (k + 1) s1).delays⟩ := by
  conv_lhs => rw [retryGo]
  rw [h]
  simp [hr]

/-- The attempt index the retry loop stops at lies between the starting
attempt and the starting attempt plus the remaining-attempt budget. -/
theorem retryGo_attempts_bounds :
    ∀ (fuel k : ℕ) (s : σ),
      k ≤ (retryGo cfg step fuel k s).attempts ∧
      (retryGo cfg step fuel k s).attempts ≤ k + fuel := by
  intro fuel
  induction fuel with
  | zero =>
      intro k s
      rcases h : step k s with ⟨o, s1⟩
      rcases o with e | v
      · rcases hr : should_retry_exception e cfg.retry_statuses
        · rw [retryGo_step_error_noretry cfg step 0 k s s1 e h hr]
          dsimp only
          omega
        · rw [retryGo_step_error_retry_zero cfg step k s s1 e h hr]
          dsimp only
          omega
      · rw [retryGo_step_ok cfg step 0 k s s1 v h]
        dsimp only
        omega
  | succ fuel ih =>
      intro k s
      rcases h : step k s with ⟨o, s1⟩
      rcases o with e | v
      · rcases hr : should_retry_exception e cfg.retry_statuses
        · rw [retryGo_step_error_noretry cfg step (fuel + 1) k s s1 e h hr]
          dsimp only
          omega
        · rw [retryGo_step_error_retry_succ cfg step fuel k s s1 e h hr]
          have := ih (k + 1) s1
          dsimp only at this ⊢
          omega
      · rw [retryGo_step_ok cfg step (fuel + 1) k s s1 v h]
        dsimp only
        omega

/-- The delay list produced by the retry loop has one entry per re-attempt,
and the entry before attempt `k + 1 + i` is the exponential-backoff delay
for that attempt. -/
theorem retryGo_delays_spec :
    ∀ (fuel k : ℕ) (s : σ),
      (retryGo cfg step fuel k s).delays.length =
        (retryGo cfg step fuel k s).attempts - k ∧
      ∀ i (hi : i < (retryGo cfg step fuel k s).delays.length),
        (retryGo cfg step fuel k s).delays.get ⟨i, hi⟩ = backoffDelay cfg (k + 1 + i) := by
  intro fuel
  induction fuel with
  | zero =>
      intro k s
      rcases h : step k s with ⟨o, s1⟩
      rcases o with e | v
      · rcases hr : should_retry_exception e cfg.retry_statuses
        · rw [retryGo_step_error_noretry cfg step 0 k s s1 e h hr]
          exact ⟨by simp, fun i hi => absurd hi (by simp)⟩
        · rw [retryGo_step_error_retry_zero cfg step k s s1 e h hr]
          exact ⟨by simp, fun i hi => absurd hi (by simp)⟩
      · rw [retryGo_step_ok cfg step 0 k s s1 v h]
        exact ⟨by simp, fun i hi => absurd hi (by simp)⟩
  | succ fuel ih =>
      intro k s
      rcases h : step k s with ⟨o, s1⟩
      rcases o with e | v
      · rcases hr : should_retry_exception e cfg.retry_statuses
        · rw [retryGo_step_error_noretry cfg step (fuel + 1) k s s1 e h hr]
          exact ⟨by simp, fun i hi => absurd hi (by simp)⟩
        · rw [retryGo_step_error_retry_succ cfg step fuel k s s1 e h hr]
          have hb := retryGo_attempts_bounds cfg step fuel (k + 1) s1
          have hd := ih (k + 1) s1
          dsimp only at hb hd ⊢
          constructor
          · simp only [List.length_cons, hd.1]
            omega
          · intro i hi
            match i with
            | 0 => simp
            | j + 1 =>
                simp only [List.get_cons_succ]
                have hj : j < (retryGo cfg step fuel (k + 1) s1).delays.length := by
                  simp only [List.length_cons] at hi
                  omega
                rw [hd.2 j hj]
                congr 1
                omega
      · rw [retryGo_step_ok cfg step (fuel + 1) k s s1 v h]
        exact ⟨by simp, fun i hi => absurd hi (by simp)⟩

/-- When every attempt up to the budget fails retryably, the loop runs the
whole budget and returns the last attempt's outcome unchanged. -/
theorem retryGo_pure_all_retryable (f : ℕ → Except RCError α) :
    ∀ (fuel k : ℕ),
      (∀ j, k ≤ j → j ≤ k + fuel →
        ∃ e, f j = .error e ∧ should_retry_exception e cfg.retry_statuses = true) →
      (retryGo cfg (pureStep f) fuel k ()).attempts = k + fuel ∧
      (retryGo cfg (pureStep f) fuel k ()).result = f (k + fuel) := by
  intro fuel
  induction fuel with
  | zero =>
      intro k hall
      obtain ⟨e, he, hr⟩ := hall k (le_refl k) (by omega)
      have hstep : pureStep f k () = (.error e, ()) := by simp [pureStep, he]
      rw [retryGo_step_error_retry_zero cfg (pureStep f) k () () e hstep hr]
      exact ⟨by dsimp only; omega, by dsimp only; simp [he]⟩
  | succ fuel ih =>
      intro k hall
      obtain ⟨e, he, hr⟩ := hall k (le_refl k) (by omega)
      have hstep : pureStep f k () = (.error e, ()) := by simp [pureStep, he]
      rw [retryGo_step_error_retry_succ cfg (pureStep f) fuel k () () e hstep hr]
      have := ih (k + 1) (fun j h1 h2 => hall j (by omega) (by omega))
      dsimp only at this ⊢
      exact ⟨by omega, by rw [this.2]; congr 1; omega⟩

end RetryLemmas

/-- C4: for the retry strategy built from a `RetryConfig` (attempt bodies
given as a pure outcome per attempt number), the total number of attempts
never exceeds `max_attempts`; the delay before attempt `k` (1-indexed,
`k = i + 2` for delay index `i`) equals
`min(backoff_factor * 2^(k-2), backoff_max)`; a non-retryable first outcome
results in exactly one attempt with the outcome re-raised unchanged; and
when every attempt fails retryably the loop stops at `max_attempts`,
re-raising the last outcome unchanged (no wrapping). -/
theorem retry_strategy_caps_and_backoff {α : Type} (cfg : RetryConfig)
    (f : ℕ → Except RCError α) (hmax : 1 ≤ cfg.max_attempts) :
    1 ≤ (retryRun cfg (pureStep f) ()).attempts ∧
    (retryRun cfg (pureStep f) ()).attempts ≤ cfg.max_attempts ∧
    (retryRun cfg (pureStep f) ()).delays.length =
      (retryRun cfg (pureStep f) ()).attempts - 1 ∧
    (∀ i (hi : i < (retryRun cfg (pureStep f) ()).delays.length),
      (retryRun cfg (pureStep f) ()).delays.get ⟨i, hi⟩ =
        min (cfg.backoff_factor * 2 ^ i) cfg.backoff_max) ∧
    (∀ e, f 1 = .error e → should_retry_exception e cfg.retry_statuses = false →
      retryRun cfg (pureStep f) () = ⟨.error e, (), 1, []⟩) ∧
    ((∀ k, 1 ≤ k → k ≤ cfg.max_attempts →
        ∃ e, f k = .error e ∧ should_retry_exception e cfg.retry_statuses = true) →
      (retryRun cfg (pureStep f) ()).attempts = cfg.max_attempts ∧
      (retryRun cfg (pureStep f) ()).result = f cfg.max_attempts) := by
  have hb := retryGo_attempts_bounds cfg (pureStep f) (cfg.max_attempts - 1) 1 ()
  have hd := retryGo_delays_spec cfg (pureStep f) (cfg.max_attempts - 1) 1 ()
  unfold retryRun
  refine ⟨hb.1, by omega, hd.1, ?_, ?_, ?_⟩
  · intro i hi
    rw [hd.2 i hi]
    unfold backoffDelay
    rw [show 1 + 1 + i - 2 = i from by omega]
  · intro e he hr
    have hstep : pureStep f 1 () = (.error e, ()) := by simp [pureStep, he]
    exact retryGo_step_error_noretry cfg (pureStep f) (cfg.max_attempts - 1) 1 () () e
      hstep hr
  · intro hall
    have h := retryGo_pure_all_retryable cfg f (cfg.max_attempts - 1) 1
      (fun j h1 h2 => hall j h1 (by omega))
    rw [show 1 + (cfg.max_attempts - 1) = cfg.max_attempts from by omega] at h
    exact h

/-- Witness for `retry_strategy_caps_and_backoff`: the default
`max_attempts = 3` with every attempt failing as a retryable connection
error. -/
theorem retry_strategy_caps_and_backoff_witness :
    1 ≤ (retryRun ⟨3, [503], 1/2, 60⟩
        (pureStep (fun _ => (.error .ConnectionError : Except RCError Unit))) ()).attempts ∧
    (retryRun ⟨3, [503], 1/2, 60⟩
        (pureStep (fun _ => (.error .ConnectionError : Except RCError Unit))) ()).attempts ≤
      (3 : ℕ) ∧
    (retryRun ⟨3, [503], 1/2, 60⟩
        (pureStep (fun _ => (.error .ConnectionError : Except RCError Unit))) ()).delays.length =
      (retryRun ⟨3, [503], 1/2, 60⟩
        (pureStep (fun _ => (.error .ConnectionError : Except RCError Unit))) ()).attempts - 1 ∧
    (∀ i (hi : i < (retryRun ⟨3, [503], 1/2, 60⟩
        (pureStep (fun _ => (.error .ConnectionError : Except RCError Unit))) ()).delays.length),
      (retryRun ⟨3, [503], 1/2, 60⟩
          (pureStep (fun _ => (.error .ConnectionError : Except RCError Unit))) ()).delays.get
          ⟨i, hi⟩ =
        min ((1 : ℚ)/2 * 2 ^ i) 60) ∧
    (∀ e, (fun _ => (.error .ConnectionError : Except RCError Unit)) 1 = .error e →
      should_retry_exception e [503] = false →
      retryRun ⟨3, [503], 1/2, 60⟩
          (pureStep (fun _ => (.error .ConnectionError : Except RCError Unit))) () =
        ⟨.error e, (), 1, []⟩) ∧
    ((∀ k, 1 ≤ k → k ≤ 3 →
        ∃ e, (fun _ => (.error .ConnectionError : Except RCError Unit)) k = .error e ∧
          should_retry_exception e [503] = true) →
      (retryRun ⟨3, [503], 1/2, 60⟩
          (pureStep (fun _ => (.error .ConnectionError : Except RCError Unit))) ()).attempts =
        (3 : ℕ) ∧
      (retryRun ⟨3, [503], 1/2, 60⟩
          (pureStep (fun _ => (.error .ConnectionError : Except RCError Unit))) ()).result =
        (fun _ => (.error .ConnectionError : Except RCError Unit)) 3) :=
  retry_strategy_caps_and_backoff ⟨3, [503], 1/2, 60⟩
    (fun _ => (.error .ConnectionError : Except RCError Unit)) (by decide)

/-- C9: when the rate limiter refuses admission, `Client.request` raises
the client-side `RateLimitError` (no response, no retry-after) at once:
the trace records zero cache accesses and zero transport calls, the core
state (breaker included) is untouched, and no retry happens; and this
error value is distinct from every server-side 429 `RateLimitError`, which
always carries the 429 response. -/
theorem request_rejected_by_rate_limiter (rl : RateLimiter) (core : CoreState)
    (retry_cfg : RetryConfig) (cache_enabled : Bool) (cacheable : List ℕ)
    (backend_get : String → Option Resp) (method url params : String) (now : ℚ)
    (tTimes : ℕ → ℚ) (transports : ℕ → TransportOutcome)
    (h : (rl.acquire none now).1 = false) :
    Client.request rl core retry_cfg cache_enabled cacheable backend_get method url params
        now tTimes transports =
      (.error (.RateLimitError none none), (rl.acquire none now).2, core, ⟨0, 0⟩) ∧
    (∀ hdr : Option String,
      handle_http_error 429 hdr = .RateLimitError (some 429) (parseRetryAfter hdr) ∧
      handle_http_error 429 hdr ≠ .RateLimitError none none) := by
  constructor
  · unfold Client.request
    rcases hacq : rl.acquire none now with ⟨ok, rl1⟩
    rw [hacq] at h
    simp only at h
    subst h
    simp
  · intro hdr
    constructor <;> simp [handle_http_error]

/-- Witness for `request_rejected_by_rate_limiter`: a drained one-token
bucket rejects a GET, which raises the client-side rate-limit error with
no cache access and no transport call. -/
theorem request_rejected_by_rate_limiter_witness :
    Client.request ⟨⟨1, 1, 0, 0⟩, []⟩
        ⟨{ config := { failure_threshold := 5, success_threshold := 2, reset_timeout := 30
                       half_open_max_calls := 3, excluded_exceptions := []
                       included_status_codes := [500, 502, 503, 504] }
           state := .CLOSED, metrics := .init, opened_at := none }, 0, 0⟩
        ⟨3, [503], 1/2, 60⟩ false [] (fun _ => none) "GET" "/items" "None" 0
        (fun _ => 0) (fun _ => .networkError) =
      (.error (.RateLimitError none none),
        ((⟨⟨1, 1, 0, 0⟩, []⟩ : RateLimiter).acquire none 0).2,
        ⟨{ config := { failure_threshold := 5, success_threshold := 2, reset_timeout := 30
                       half_open_max_calls := 3, excluded_exceptions := []
                       included_status_codes := [500, 502, 503, 504] }
           state := .CLOSED, metrics := .init, opened_at := none }, 0, 0⟩, ⟨0, 0⟩) ∧
    (∀ hdr : Option String,
      handle_http_error 429 hdr = .RateLimitError (some 429) (parseRetryAfter hdr) ∧
      handle_http_error 429 hdr ≠ .RateLimitError none none) :=
  request_rejected_by_rate_limiter ⟨⟨1, 1, 0, 0⟩, []⟩
    ⟨{ config := { failure_threshold := 5, success_threshold := 2, reset_timeout := 30
                   half_open_max_calls := 3, excluded_exceptions := []
                   included_status_codes := [500, 502, 503, 504] }
       state := .CLOSED, metrics := .init, opened_at := none }, 0, 0⟩
    ⟨3, [503], 1/2, 60⟩ false [] (fun _ => none) "GET" "/items" "None" 0
    (fun _ => 0) (fun _ => .networkError)
    (by simp [RateLimiter.acquire_eq, TokenBucket.acquire]; decide)

end RestClient
